import Mathlib

/-!
Shallow embedding of `shenandoahAdaptiveHeuristics.cpp` (the adaptive GC
heuristic of the Shenandoah collector): collection-set selection, the
allocation-rate estimator, the trigger decision, the runway estimator and the
post-cycle feedback loop that retunes the confidence parameters.

Modelling conventions:
* `size_t` byte counts are modelled as `Nat` (the source assumes these
  quantities never overflow; theorems that depend on a subtraction carry an
  explicit no-underflow hypothesis where the source has none);
* `double` quantities are modelled as real numbers; `double`-valued tunables
  that enter only exact rational arithmetic (`ShenandoahEvacWaste`,
  `ShenandoahOldEvacWaste`) are modelled as rationals, which is faithful
  because every finite double is a rational number;
* a `(size_t)` cast of a non-negative `double` truncates toward zero, which is
  modelled as `Int.toNat ∘ Int.floor` (respectively `Rat.floor`);
* collaborator reads (generation, free set, heap mode, clock) are passed in as
  explicit arguments, mirroring the values the source reads once per call.
-/

open scoped Classical

/-- A heap region as the chooser sees it: `index()`, `age()`, `is_old()`,
`get_live_data_bytes()` (here `live`) and `garbage()`. -/
structure Region where
  index : Nat
  age : Nat
  is_old : Bool
  live : Nat
  garbage : Nat
deriving DecidableEq

/-- Modelled from the spec: `QuickSort::sort(data, size, compare_by_garbage, false)`
is outside this file; per the spec the chooser sorts the region data by
`garbage()` descending before selection. -/
def sortByGarbage (data : List Region) : List Region :=
  List.insertionSort (fun a b => b.garbage ≤ a.garbage) data

/-- Tunables read by `choose_collection_set_from_regiondata`. -/
structure ChooserParams where
  region_size_bytes : Nat
  GarbageThreshold : Nat
  IgnoreGarbageThreshold : Nat
  MinFreeThreshold : Nat
  EvacReserve : Nat
  EvacWaste : Rat
  OldEvacWaste : Rat
  InitialTenuringThreshold : Nat
deriving DecidableEq

/-- The non-generational selection loop (source lines 221-239): walking the
sorted data with accumulators `cur_cset` and `cur_garbage`, it computes
`new_cset = cur_cset + live` and `new_garbage = cur_garbage + garbage`, breaks
out of the entire loop once `new_cset > max_cset`, and otherwise adds the
region exactly when `new_garbage < min_garbage` or
`garbage > garbage_threshold`. -/
def nonGenLoop (max_cset min_garbage garbage_threshold : Nat) :
    Nat → Nat → List Region → List Region
  | _, _, [] => []
  | cur_cset, cur_garbage, r :: rest =>
    let new_cset := cur_cset + r.live
    let new_garbage := cur_garbage + r.garbage
    if new_cset > max_cset then
      []
    else if new_garbage < min_garbage ∨ r.garbage > garbage_threshold then
      r :: nonGenLoop max_cset min_garbage garbage_threshold new_cset new_garbage rest
    else
      nonGenLoop max_cset min_garbage garbage_threshold cur_cset cur_garbage rest

/-- `choose_collection_set_from_regiondata`, non-generational branch (source
lines 207-240).  `heap_max_capacity` is `ShenandoahHeap::heap()->max_capacity()`;
the result is the sequence of regions passed to `cset->add_region`. -/
def choose_collection_set_nongen (P : ChooserParams)
    (heap_max_capacity actual_free : Nat) (data : List Region) : List Region :=
  let garbage_threshold := P.region_size_bytes * P.GarbageThreshold / 100
  let capacity := heap_max_capacity
  let max_cset := (⌊((capacity : Rat) / 100 * (P.EvacReserve : Rat)) / P.EvacWaste⌋).toNat
  let free_target := capacity * P.MinFreeThreshold / 100 + max_cset
  let min_garbage := if free_target > actual_free then free_target - actual_free else 0
  nonGenLoop max_cset min_garbage garbage_threshold 0 0 (sortByGarbage data)

/-- The non-generational walk exactly as claim C1 words it: for each region
`r`, terminate the entire loop as soon as `cur_cset + live > max_cset`;
otherwise add `r` if and only if `cur_garbage < min_garbage` (the garbage of
the regions added so far, not counting `r`) or `garbage > garbage_threshold`. -/
def nonGenLoopClaimed (max_cset min_garbage garbage_threshold : Nat) :
    Nat → Nat → List Region → List Region
  | _, _, [] => []
  | cur_cset, cur_garbage, r :: rest =>
    if cur_cset + r.live > max_cset then
      []
    else if cur_garbage < min_garbage ∨ r.garbage > garbage_threshold then
      r :: nonGenLoopClaimed max_cset min_garbage garbage_threshold
        (cur_cset + r.live) (cur_garbage + r.garbage) rest
    else
      nonGenLoopClaimed max_cset min_garbage garbage_threshold cur_cset cur_garbage rest

/-- Claim C1's formulas, followed word for word: `max_cset =
capacity·EvacReserve/100/EvacWaste`, `free_target =
capacity·MinFreeThreshold/100 + max_cset`, `min_garbage =
max(0, free_target − actual_free)`, walking the regions sorted by garbage
descending with the claimed per-region rule. -/
def choose_nongen_claimed (P : ChooserParams)
    (heap_max_capacity actual_free : Nat) (data : List Region) : List Region :=
  let garbage_threshold := P.region_size_bytes * P.GarbageThreshold / 100
  let capacity := heap_max_capacity
  let max_cset := (⌊(capacity : Rat) * (P.EvacReserve : Rat) / 100 / P.EvacWaste⌋).toNat
  let free_target := capacity * P.MinFreeThreshold / 100 + max_cset
  let min_garbage := ((free_target : Int) - (actual_free : Int)).toNat
  nonGenLoopClaimed max_cset min_garbage garbage_threshold 0 0 (sortByGarbage data)

/-- The amended per-region rule: as claim C1, except that the first disjunct of
the add-condition compares `cur_garbage + r.garbage` (the garbage including
`r`) against `min_garbage`, and a region's live and garbage are accumulated
when it is added. -/
def nonGenLoopAmended (max_cset min_garbage garbage_threshold : Nat) :
    Nat → Nat → List Region → List Region
  | _, _, [] => []
  | cur_cset, cur_garbage, r :: rest =>
    if cur_cset + r.live > max_cset then
      []
    else if cur_garbage + r.garbage < min_garbage ∨ r.garbage > garbage_threshold then
      r :: nonGenLoopAmended max_cset min_garbage garbage_threshold
        (cur_cset + r.live) (cur_garbage + r.garbage) rest
    else
      nonGenLoopAmended max_cset min_garbage garbage_threshold cur_cset cur_garbage rest

/-- Claim C1 amended: the same formulas as the claim, with the amended
per-region rule. -/
def choose_nongen_amended (P : ChooserParams)
    (heap_max_capacity actual_free : Nat) (data : List Region) : List Region :=
  let garbage_threshold := P.region_size_bytes * P.GarbageThreshold / 100
  let capacity := heap_max_capacity
  let max_cset := (⌊(capacity : Rat) * (P.EvacReserve : Rat) / 100 / P.EvacWaste⌋).toNat
  let free_target := capacity * P.MinFreeThreshold / 100 + max_cset
  let min_garbage := ((free_target : Int) - (actual_free : Int)).toNat
  nonGenLoopAmended max_cset min_garbage garbage_threshold 0 0 (sortByGarbage data)

/-- The global-mode second pass of the generational chooser (source lines
143-172): preselected regions are skipped; an old region is added when it fits
the old budget and clears the garbage threshold; a young region below tenure
age is added when it fits the young budget and either clears the garbage
threshold or is added regardless (`garbage > ignore_threshold` while
`cur_young_garbage + garbage < min_garbage`); aged young regions that were not
preselected are never added. -/
def globalLoop (pre : Nat → Bool)
    (tenure garbage_threshold ignore_threshold max_young_cset max_old_cset min_garbage : Nat) :
    Nat → Nat → Nat → List Region → List Region
  | _, _, _, [] => []
  | old_cur_cset, young_cur_cset, cur_young_garbage, r :: rest =>
    if pre r.index then
      globalLoop pre tenure garbage_threshold ignore_threshold max_young_cset max_old_cset
        min_garbage old_cur_cset young_cur_cset cur_young_garbage rest
    else if r.is_old then
      let new_cset := old_cur_cset + r.live
      if new_cset ≤ max_old_cset ∧ r.garbage > garbage_threshold then
        r :: globalLoop pre tenure garbage_threshold ignore_threshold max_young_cset
          max_old_cset min_garbage new_cset young_cur_cset cur_young_garbage rest
      else
        globalLoop pre tenure garbage_threshold ignore_threshold max_young_cset max_old_cset
          min_garbage old_cur_cset young_cur_cset cur_young_garbage rest
    else if r.age < tenure then
      let new_cset := young_cur_cset + r.live
      let new_garbage := cur_young_garbage + r.garbage
      if new_cset ≤ max_young_cset ∧
          ((r.garbage > ignore_threshold ∧ new_garbage < min_garbage) ∨
            r.garbage > garbage_threshold) then
        r :: globalLoop pre tenure garbage_threshold ignore_threshold max_young_cset
          max_old_cset min_garbage old_cur_cset new_cset new_garbage rest
      else
        globalLoop pre tenure garbage_threshold ignore_threshold max_young_cset max_old_cset
          min_garbage old_cur_cset young_cur_cset cur_young_garbage rest
    else
      globalLoop pre tenure garbage_threshold ignore_threshold max_young_cset max_old_cset
        min_garbage old_cur_cset young_cur_cset cur_young_garbage rest

/-- The young/mixed second pass of the generational chooser (source lines
185-205): preselected regions are skipped; a region below tenure age is added
when it fits the budget and either clears the garbage threshold or is added
regardless; aged regions that were not preselected are never added. -/
def youngLoop (pre : Nat → Bool)
    (tenure garbage_threshold ignore_threshold max_cset min_garbage : Nat) :
    Nat → Nat → List Region → List Region
  | _, _, [] => []
  | cur_cset, cur_young_garbage, r :: rest =>
    if pre r.index then
      youngLoop pre tenure garbage_threshold ignore_threshold max_cset min_garbage
        cur_cset cur_young_garbage rest
    else if r.age < tenure then
      let new_cset := cur_cset + r.live
      let new_garbage := cur_young_garbage + r.garbage
      if new_cset ≤ max_cset ∧
          ((r.garbage > ignore_threshold ∧ new_garbage < min_garbage) ∨
            r.garbage > garbage_threshold) then
        r :: youngLoop pre tenure garbage_threshold ignore_threshold max_cset min_garbage
          new_cset new_garbage rest
      else
        youngLoop pre tenure garbage_threshold ignore_threshold max_cset min_garbage
          cur_cset cur_young_garbage rest
    else
      youngLoop pre tenure garbage_threshold ignore_threshold max_cset min_garbage
        cur_cset cur_young_garbage rest

/-- `choose_collection_set_from_regiondata`, generational branch (source lines
111-206).  The first pass (lines 112-128) adds every preselected region and
accumulates its `garbage()` into `cur_young_garbage`; the second pass is
`globalLoop` when the generation is global and `youngLoop` otherwise.
`pre i` models `cset->is_preselected(i)`; `young_capacity` is
`heap->young_generation()->max_capacity()`. -/
def choose_collection_set_generational (P : ChooserParams) (pre : Nat → Bool)
    (is_global : Bool) (young_evac_reserve old_evac_reserve young_capacity actual_free : Nat)
    (data : List Region) : List Region :=
  let garbage_threshold := P.region_size_bytes * P.GarbageThreshold / 100
  let ignore_threshold := P.region_size_bytes * P.IgnoreGarbageThreshold / 100
  let sorted := sortByGarbage data
  let preselected := sorted.filter (fun r => pre r.index)
  let cur_young_garbage := (preselected.map Region.garbage).sum
  if is_global then
    let max_young_cset := (⌊(young_evac_reserve : Rat) / P.EvacWaste⌋).toNat
    let max_old_cset := (⌊(old_evac_reserve : Rat) / P.OldEvacWaste⌋).toNat
    let free_target := young_capacity * P.MinFreeThreshold / 100 + max_young_cset
    let min_garbage := if free_target > actual_free then free_target - actual_free else 0
    preselected ++ globalLoop pre P.InitialTenuringThreshold garbage_threshold
      ignore_threshold max_young_cset max_old_cset min_garbage 0 0 cur_young_garbage sorted
  else
    let max_cset := (⌊(young_evac_reserve : Rat) / P.EvacWaste⌋).toNat
    let free_target := young_capacity * P.MinFreeThreshold / 100 + max_cset
    let min_garbage := if free_target > actual_free then free_target - actual_free else 0
    preselected ++ youngLoop pre P.InitialTenuringThreshold garbage_threshold
      ignore_threshold max_cset min_garbage 0 cur_young_garbage sorted

/-- The cause recorded for the most recent trigger decision
(`ShenandoahAdaptiveHeuristics::{RATE, SPIKE, OTHER}`). -/
inductive Trigger where
  | RATE : Trigger
  | SPIKE : Trigger
  | OTHER : Trigger
deriving DecidableEq

/-- `ShenandoahAdaptiveHeuristics::FULL_PENALTY_SD` (source line 43). -/
noncomputable def FULL_PENALTY_SD : ℝ := 0.2

/-- `ShenandoahAdaptiveHeuristics::DEGENERATE_PENALTY_SD` (source line 44). -/
noncomputable def DEGENERATE_PENALTY_SD : ℝ := 0.1

/-- `ShenandoahAdaptiveHeuristics::LOWEST_EXPECTED_AVAILABLE_AT_END` (line 48). -/
noncomputable def LOWEST_EXPECTED_AVAILABLE_AT_END : ℝ := -0.5

/-- `ShenandoahAdaptiveHeuristics::HIGHEST_EXPECTED_AVAILABLE_AT_END` (line 49). -/
noncomputable def HIGHEST_EXPECTED_AVAILABLE_AT_END : ℝ := 0.5

/-- `ShenandoahAdaptiveHeuristics::MINIMUM_CONFIDENCE` (source line 58). -/
noncomputable def MINIMUM_CONFIDENCE : ℝ := 0.319

/-- `ShenandoahAdaptiveHeuristics::MAXIMUM_CONFIDENCE` (source line 59). -/
noncomputable def MAXIMUM_CONFIDENCE : ℝ := 3.291

/-- `saturate(value, min, max) = MAX2(MIN2(value, max), min)` (source lines
327-329). -/
noncomputable def saturate (value lo hi : ℝ) : ℝ :=
  max (min value hi) lo

/-- Modelled from the spec: the decayed moving average (HotSpot's
`TruncatedSeq`, defined in `utilities/numberSeq` which is not part of this
file).  Per the spec it keeps the last up-to-`cap` samples; `avg`/`sd` are the
arithmetic mean and population standard deviation of the current window (0 with
at most one sample), and `davg`/`dsd` are the decayed equivalents with newer
samples weighted by `alpha^k`.  The window is stored newest first. -/
structure DMA where
  cap : Nat
  alpha : ℝ
  window : List ℝ

/-- Append a sample, dropping the oldest once the window is full. -/
noncomputable def DMA.add (d : DMA) (x : ℝ) : DMA :=
  { d with window := (x :: d.window).take d.cap }

/-- Arithmetic mean of the current window (0 when empty). -/
noncomputable def DMA.avg (d : DMA) : ℝ :=
  d.window.sum / d.window.length

/-- Population variance of the current window (0 with at most one sample). -/
noncomputable def DMA.variance (d : DMA) : ℝ :=
  ((d.window.map fun x => (x - d.avg) ^ 2).sum) / d.window.length

/-- Population standard deviation of the current window. -/
noncomputable def DMA.sd (d : DMA) : ℝ :=
  Real.sqrt d.variance

/-- Decay weights `alpha^0, alpha^1, ...`, newest sample first. -/
noncomputable def DMA.weights (d : DMA) : List ℝ :=
  (List.range d.window.length).map fun k => d.alpha ^ k

/-- Decayed mean: weighted mean with newer samples weighted by `alpha^k`. -/
noncomputable def DMA.davg (d : DMA) : ℝ :=
  (List.zipWith (fun w x => w * x) d.weights d.window).sum / d.weights.sum

/-- Decayed variance: weighted population variance about the decayed mean. -/
noncomputable def DMA.dvariance (d : DMA) : ℝ :=
  (List.zipWith (fun w x => w * (x - d.davg) ^ 2) d.weights d.window).sum / d.weights.sum

/-- Decayed standard deviation. -/
noncomputable def DMA.dsd (d : DMA) : ℝ :=
  Real.sqrt d.dvariance

/-- `ShenandoahAllocationRate` (source lines 598-658): the sample clock and
counter snapshot, the minimum sampling interval, and the two moving averages
(`_rate` over instantaneous rate samples, `_rate_avg` over `_rate.avg()`). -/
structure AllocationRate where
  last_sample_time : ℝ
  last_sample_value : Nat
  interval_sec : ℝ
  rate : DMA
  rate_avg : DMA

/-- `ShenandoahAllocationRate::instantaneous_rate` (source lines 652-658): the
allocation delta is clamped at 0 when the counter regressed, and the rate is 0
whenever the elapsed time is not positive. -/
noncomputable def AllocationRate.instantaneous_rate
    (a : AllocationRate) (time : ℝ) (allocated : Nat) : ℝ :=
  let allocation_delta : Nat :=
    if allocated > a.last_sample_value then allocated - a.last_sample_value else 0
  let time_delta_sec : ℝ := time - a.last_sample_time
  if time_delta_sec > 0 then (allocation_delta : ℝ) / time_delta_sec else 0

/-- `ShenandoahAllocationRate::sample` (source lines 606-620).  `now` models
`os::elapsedTime()`.  Returns the instantaneous rate (0 if no sample was taken
or the counter regressed) together with the updated estimator state. -/
noncomputable def AllocationRate.sample
    (a : AllocationRate) (now : ℝ) (allocated : Nat) : ℝ × AllocationRate :=
  if now - a.last_sample_time > a.interval_sec then
    if allocated ≥ a.last_sample_value then
      let rate := a.instantaneous_rate now allocated
      let rate' := a.rate.add rate
      (rate,
        { a with
          rate := rate'
          rate_avg := a.rate_avg.add rate'.avg
          last_sample_time := now
          last_sample_value := allocated })
    else
      (0, { a with last_sample_time := now, last_sample_value := allocated })
  else
    (0, a)

/-- `ShenandoahAllocationRate::upper_bound` (source lines 622-628):
`_rate.davg() + sds · _rate_avg.dsd()`. -/
noncomputable def AllocationRate.upper_bound (a : AllocationRate) (sds : ℝ) : ℝ :=
  a.rate.davg + sds * a.rate_avg.dsd

/-- `ShenandoahAllocationRate::is_spiking` (source lines 635-650): true exactly
when the rate is positive, the sample standard deviation is positive, and the
z-score of the rate exceeds the threshold. -/
def AllocationRate.is_spiking (a : AllocationRate) (rate threshold : ℝ) : Prop :=
  0 < rate ∧ 0 < a.rate.sd ∧ (rate - a.rate.avg) / a.rate.sd > threshold

/-- The mutable heuristic state: the adaptive fields of
`ShenandoahAdaptiveHeuristics` (margin of error, spike threshold, last trigger,
`_available` history, `_allocation_rate`) together with the base-class fields
it reads (`_gc_times_learned`, `_gc_time_penalties`, and the cached decayed
statistics of `_gc_cycle_time_history`, which is owned and updated by the base
class outside this file). -/
structure AdaptiveState where
  margin_of_error_sd : ℝ
  spike_threshold_sd : ℝ
  last_trigger : Trigger
  available : DMA
  allocation_rate : AllocationRate
  gc_times_learned : Nat
  gc_time_penalties : Nat
  cycle_davg : ℝ
  cycle_dsd : ℝ

/-- `ShenandoahAdaptiveHeuristics::adjust_margin_of_error` (source lines
588-591): `margin += amount`, saturated to the confidence interval. -/
noncomputable def adjust_margin_of_error (s : AdaptiveState) (amount : ℝ) : AdaptiveState :=
  { s with
    margin_of_error_sd :=
      saturate (s.margin_of_error_sd + amount) MINIMUM_CONFIDENCE MAXIMUM_CONFIDENCE }

/-- `ShenandoahAdaptiveHeuristics::adjust_spike_threshold` (source lines
593-596): `spike -= amount`, saturated to the confidence interval. -/
noncomputable def adjust_spike_threshold (s : AdaptiveState) (amount : ℝ) : AdaptiveState :=
  { s with
    spike_threshold_sd :=
      saturate (s.spike_threshold_sd - amount) MINIMUM_CONFIDENCE MAXIMUM_CONFIDENCE }

/-- `ShenandoahAdaptiveHeuristics::adjust_last_trigger_parameters` (source
lines 572-586): dispatch on `_last_trigger`, adjusting the margin of error
after a RATE trigger, the spike threshold after a SPIKE trigger, and nothing
after OTHER. -/
noncomputable def adjust_last_trigger_parameters
    (s : AdaptiveState) (amount : ℝ) : AdaptiveState :=
  match s.last_trigger with
  | Trigger.RATE => adjust_margin_of_error s amount
  | Trigger.SPIKE => adjust_spike_threshold s amount
  | Trigger.OTHER => s

/-- `ShenandoahAdaptiveHeuristics::record_success_degenerated` (source lines
311-317).  The base-class call updates only base-class state outside this
file. -/
noncomputable def record_success_degenerated (s : AdaptiveState) : AdaptiveState :=
  adjust_spike_threshold (adjust_margin_of_error s DEGENERATE_PENALTY_SD)
    DEGENERATE_PENALTY_SD

/-- `ShenandoahAdaptiveHeuristics::record_success_full` (source lines 319-325). -/
noncomputable def record_success_full (s : AdaptiveState) : AdaptiveState :=
  adjust_spike_threshold (adjust_margin_of_error s FULL_PENALTY_SD) FULL_PENALTY_SD

/-- `ShenandoahAdaptiveHeuristics::record_success_concurrent` (source lines
258-309): `available = MIN2(generation.available, free_set.available)`; the
z-score is computed from `_available`'s statistics BEFORE the new sample is
pushed (0 unless the standard deviation is positive); the sample is then
pushed, and when the z-score falls outside the expected band the last
trigger's parameter is adjusted by `z_score / -100`. -/
noncomputable def record_success_concurrent
    (s : AdaptiveState) (gen_available fs_available : Nat) : AdaptiveState :=
  let available : Nat := min gen_available fs_available
  let available_sd := s.available.sd
  let z_score : ℝ :=
    if available_sd > 0 then ((available : ℝ) - s.available.avg) / available_sd else 0
  let s1 := { s with available := s.available.add (available : ℝ) }
  if z_score < LOWEST_EXPECTED_AVAILABLE_AT_END ∨
      z_score > HIGHEST_EXPECTED_AVAILABLE_AT_END then
    adjust_last_trigger_parameters s1 (z_score / (-100))
  else
    s1

/-- Claim C3 exactly as worded: the new `available` sample is pushed onto the
history FIRST, and the z-score is then computed from the post-push `avg` and
`sd` of the history. -/
noncomputable def record_success_concurrent_claimed
    (s : AdaptiveState) (gen_available fs_available : Nat) : AdaptiveState :=
  let available : Nat := min gen_available fs_available
  let s1 := { s with available := s.available.add (available : ℝ) }
  let available_sd := s1.available.sd
  let z_score : ℝ :=
    if available_sd > 0 then ((available : ℝ) - s1.available.avg) / available_sd else 0
  if z_score < LOWEST_EXPECTED_AVAILABLE_AT_END ∨
      z_score > HIGHEST_EXPECTED_AVAILABLE_AT_END then
    adjust_last_trigger_parameters s1 (-z_score / 100)
  else
    s1

/-- Claim C3 amended: the z-score is computed from the history's `avg` and `sd`
before `available` is pushed (0 when that standard deviation is not positive);
then the sample is pushed, and `adjust_last_trigger_parameters(-z/100)` is
called exactly when `z < -0.5` or `z > 0.5`. -/
noncomputable def record_success_concurrent_amended
    (s : AdaptiveState) (gen_available fs_available : Nat) : AdaptiveState :=
  let available : Nat := min gen_available fs_available
  let available_sd := s.available.sd
  let z_score : ℝ :=
    if available_sd > 0 then ((available : ℝ) - s.available.avg) / available_sd else 0
  let s1 := { s with available := s.available.add (available : ℝ) }
  if z_score < LOWEST_EXPECTED_AVAILABLE_AT_END ∨
      z_score > HIGHEST_EXPECTED_AVAILABLE_AT_END then
    adjust_last_trigger_parameters s1 (-z_score / 100)
  else
    s1

/-- A completed-cycle outcome, as reported to the heuristic by the collector:
one of the three `record_success_*` notifications (a concurrent success carries
the generation and free-set available bytes read at that moment). -/
inductive Event where
  | degen : Event
  | full : Event
  | conc : Nat → Nat → Event

/-- Apply one cycle outcome to the heuristic state. -/
noncomputable def applyEvent (s : AdaptiveState) : Event → AdaptiveState
  | Event.degen => record_success_degenerated s
  | Event.full => record_success_full s
  | Event.conc ga fa => record_success_concurrent s ga fa

/-- Apply a sequence of cycle outcomes in order. -/
noncomputable def applyTrace : List Event → AdaptiveState → AdaptiveState
  | [], s => s
  | e :: tr, s => applyTrace tr (applyEvent s e)

/-- Both confidence parameters lie in
`[MINIMUM_CONFIDENCE, MAXIMUM_CONFIDENCE]`. -/
def inConfidenceRange (x : ℝ) : Prop :=
  MINIMUM_CONFIDENCE ≤ x ∧ x ≤ MAXIMUM_CONFIDENCE

/-- Tunables read by the trigger decision and the runway estimator. -/
structure TriggerParams where
  MinFreeThreshold : Nat
  InitFreeThreshold : Nat
  LearningSteps : Nat
  AllocSpikeFactor : Nat
  region_size_bytes : Nat
deriving DecidableEq

/-- Collaborator values read once per trigger/runway call: the generation, the
free set, the collection set, the heap mode and the generational-expedite
inputs.  `base_should_start_gc` is modelled from the spec: the base
`ShenandoahHeuristics::should_start_gc()` (a time-based guaranteed-cycle
trigger defined outside this file) is represented by the boolean it would
return. -/
structure Env where
  soft_max_capacity : Nat
  soft_available : Nat
  free_set_available : Nat
  bytes_allocated_since_gc_start : Nat
  used : Nat
  young_available_bytes_collected : Nat
  is_old : Bool
  is_generational : Bool
  promo_potential : Nat
  promo_in_place_potential : Nat
  mixed_candidates : Nat
  base_should_start_gc : Bool
deriving DecidableEq

/-- Modelled from the spec: `min_free_threshold()` is declared outside this
file; the spec defines it as `capacity · ShenandoahMinFreeThreshold / 100`. -/
def min_free_threshold (P : TriggerParams) (capacity : Nat) : Nat :=
  capacity * P.MinFreeThreshold / 100

/-- `ShenandoahAdaptiveHeuristics::should_start_gc` (source lines 409-570).
Returns the decision together with the updated state (`_last_trigger` and the
sampled allocation rate).  The comparisons `avg_cycle_time >
allocation_headroom / avg_alloc_rate` are guarded by the divisor being nonzero:
in the source these are IEEE double comparisons, and a zero divisor yields
`inf` or `NaN`, for which the comparison is false. -/
noncomputable def should_start_gc
    (P : TriggerParams) (E : Env) (now : ℝ) (s : AdaptiveState) : Bool × AdaptiveState :=
  let capacity := E.soft_max_capacity
  let available0 := E.soft_available
  let allocated := E.bytes_allocated_since_gc_start
  let usable := E.free_set_available
  let available := if usable < available0 then usable else available0
  let sampled := s.allocation_rate.sample now allocated
  let rate := sampled.1
  let s := { s with allocation_rate := sampled.2, last_trigger := Trigger.OTHER }
  if E.is_old then
    (E.base_should_start_gc, s)
  else
    let min_threshold := min_free_threshold P capacity
    if available < min_threshold then
      (true, s)
    else if s.gc_times_learned < P.LearningSteps ∧
        available < capacity / 100 * P.InitFreeThreshold then
      (true, s)
    else
      let spike_headroom := capacity / 100 * P.AllocSpikeFactor
      let penalties := capacity / 100 * s.gc_time_penalties
      let headroom1 := available - min available penalties
      let allocation_headroom := headroom1 - min headroom1 spike_headroom
      let avg_cycle_time := s.cycle_davg + s.margin_of_error_sd * s.cycle_dsd
      let avg_alloc_rate := s.allocation_rate.upper_bound s.margin_of_error_sd
      if avg_alloc_rate ≠ 0 ∧ avg_cycle_time > (allocation_headroom : ℝ) / avg_alloc_rate then
        (true, { s with last_trigger := Trigger.RATE })
      else if s.allocation_rate.is_spiking rate s.spike_threshold_sd ∧
          avg_cycle_time > (allocation_headroom : ℝ) / rate then
        (true, { s with last_trigger := Trigger.SPIKE })
      else if E.is_generational then
        if E.promo_potential > 0 then (true, s)
        else if E.promo_in_place_potential > 0 then (true, s)
        else if E.mixed_candidates > 0 then (true, s)
        else (E.base_should_start_gc, s)
      else
        (E.base_should_start_gc, s)

/-- The repeated `if anticipated > budget then (size_t)(anticipated - budget)
else 0` pattern of the runway estimator; the positive double difference is
truncated toward zero by the `size_t` assignment. -/
noncomputable def evacSlack (anticipated : Nat) (budget : ℝ) : Nat :=
  if (anticipated : ℝ) > budget then (⌊(anticipated : ℝ) - budget⌋).toNat else 0

/-- `ShenandoahAdaptiveHeuristics::bytes_of_allocation_runway_before_gc_trigger`
(source lines 335-407; precondition: the young-generation heuristic).  Returns
`MIN3(evac_slack_spiking, evac_slack_avg, evac_min_threshold)`. -/
noncomputable def bytes_of_allocation_runway_before_gc_trigger
    (P : TriggerParams) (E : Env) (now : ℝ) (s : AdaptiveState)
    (young_regions_to_be_reclaimed : Nat) : Nat :=
  let capacity := E.soft_max_capacity
  let usage := E.used
  let available := if capacity > usage then capacity - usage else 0
  let allocated := E.bytes_allocated_since_gc_start
  let anticipated_available :=
    available + young_regions_to_be_reclaimed * P.region_size_bytes -
      E.young_available_bytes_collected
  let spike_headroom := capacity * P.AllocSpikeFactor / 100
  let penalties := capacity * s.gc_time_penalties / 100
  let sampled := s.allocation_rate.sample now allocated
  let rate := sampled.1
  let ar := sampled.2
  let avg_cycle_time := s.cycle_davg + s.margin_of_error_sd * s.cycle_dsd
  let avg_alloc_rate := ar.upper_bound s.margin_of_error_sd
  let evac_slack_avg :=
    evacSlack anticipated_available
      (avg_cycle_time * avg_alloc_rate + (penalties : ℝ) + (spike_headroom : ℝ))
  let evac_slack_spiking :=
    if ar.is_spiking rate s.spike_threshold_sd then
      evacSlack anticipated_available
        (avg_cycle_time * rate + (penalties : ℝ) + (spike_headroom : ℝ))
    else
      evac_slack_avg
  let threshold := min_free_threshold P capacity
  let evac_min_threshold :=
    if anticipated_available > threshold then anticipated_available - threshold else 0
  min (min evac_slack_spiking evac_slack_avg) evac_min_threshold

/-! Concrete instances used by the witnesses and counterexamples below. -/

/-- Chooser tunables: 100-byte regions, `GarbageThreshold = 20`,
`IgnoreGarbageThreshold = 10`, `MinFreeThreshold = 10`, `EvacReserve = 10`,
`EvacWaste = OldEvacWaste = 1`, tenure age 15. -/
def C1P : ChooserParams := ⟨100, 20, 10, 10, 10, 1, 1, 15⟩

/-- A region with no live data and 10 bytes of garbage. -/
def C1r : Region := ⟨0, 0, false, 0, 10⟩

/-- Trigger tunables: `MinFreeThreshold = 10`, `InitFreeThreshold = 70`,
`LearningSteps = 5`, `AllocSpikeFactor = 5`, 100-byte regions. -/
def C2P : TriggerParams := ⟨10, 70, 5, 5, 100⟩

/-- A non-old, non-generational environment with 5 bytes available out of a
1000-byte capacity. -/
def C2E : Env := ⟨1000, 5, 5, 0, 0, 0, false, false, 0, 0, 0, false⟩

/-- A fresh heuristic state: margin 1, spike threshold 2, last trigger OTHER,
empty histories. -/
noncomputable def C2s : AdaptiveState :=
  ⟨1, 2, Trigger.OTHER, ⟨10, 1, []⟩, ⟨0, 0, 1, ⟨10, 1, []⟩, ⟨10, 1, []⟩⟩, 0, 0, 0, 0⟩

/-- A state whose last trigger was RATE and whose available history holds the
single sample 0. -/
noncomputable def C3s : AdaptiveState :=
  ⟨1, 2, Trigger.RATE, ⟨10, 1, [0]⟩, ⟨0, 0, 1, ⟨10, 1, []⟩, ⟨10, 1, []⟩⟩, 0, 0, 0, 0⟩

/-- A fresh heuristic state with margin 1 and spike threshold 2. -/
noncomputable def C4s : AdaptiveState :=
  ⟨1, 2, Trigger.OTHER, ⟨10, 1, []⟩, ⟨0, 0, 1, ⟨10, 1, []⟩, ⟨10, 1, []⟩⟩, 0, 0, 0, 0⟩

/-- An allocation-rate estimator that last sampled value 100 at time 0, with a
1-second interval. -/
noncomputable def C5a : AllocationRate := ⟨0, 100, 1, ⟨10, 1, []⟩, ⟨10, 1, []⟩⟩

/-- A state with margin of error 1.00 and spike threshold 2.00. -/
noncomputable def C8s : AdaptiveState :=
  ⟨1, 2, Trigger.OTHER, ⟨10, 1, []⟩, ⟨0, 0, 1, ⟨10, 1, []⟩, ⟨10, 1, []⟩⟩, 0, 0, 0, 0⟩

/-- Trigger tunables for the runway witness. -/
def C6P : TriggerParams := ⟨10, 70, 5, 5, 100⟩

/-- A young-generation environment: capacity 1000, 200 bytes used, nothing yet
collected. -/
def C6E : Env := ⟨1000, 800, 800, 0, 200, 0, false, true, 0, 0, 0, false⟩

/-- A fresh heuristic state for the runway witness. -/
noncomputable def C6s : AdaptiveState :=
  ⟨1, 2, Trigger.OTHER, ⟨10, 1, []⟩, ⟨0, 0, 1, ⟨10, 1, []⟩, ⟨10, 1, []⟩⟩, 0, 0, 0, 0⟩

/-- Chooser tunables with `GarbageThreshold = 25`. -/
def C7P : ChooserParams := ⟨100, 25, 10, 10, 10, 1, 1, 15⟩

/-- An old region of tenure age (16 ≥ 15) with 5 live and 90 garbage bytes. -/
def C7r : Region := ⟨0, 16, true, 5, 90⟩

/-- Two young regions, the first of tenure age and preselected. -/
def C7dataW : List Region := [⟨1, 16, false, 5, 90⟩, ⟨2, 3, false, 5, 50⟩]

/-- Preselection of region index 1 only. -/
def C7preW : Nat → Bool := fun i => i == 1

/-- Trigger tunables for the learning-trigger claim. -/
def C9P : TriggerParams := ⟨10, 70, 5, 5, 100⟩

/-- Capacity 102, 70 bytes available: `102 * 70 / 100 = 71` but the source
computes `102 / 100 * 70 = 70`, so 70 available does not fire the learning
trigger. -/
def C9E : Env := ⟨102, 70, 70, 0, 0, 0, false, false, 0, 0, 0, false⟩

/-- Same environment with only 60 bytes available (below both thresholds but
above the minimum threshold 10). -/
def C9Ew : Env := ⟨102, 60, 60, 0, 0, 0, false, false, 0, 0, 0, false⟩

/-- A learning-phase heuristic state (`gc_times_learned = 0`), empty
histories, zero cycle-time statistics. -/
noncomputable def C9s : AdaptiveState :=
  ⟨1, 2, Trigger.OTHER, ⟨10, 1, []⟩, ⟨0, 0, 1, ⟨10, 1, []⟩, ⟨10, 1, []⟩⟩, 0, 0, 0, 0⟩

/-- An allocation-rate estimator with empty windows, last sample (time 0,
value 0). -/
noncomputable def C10a : AllocationRate := ⟨0, 0, 1, ⟨10, 1, []⟩, ⟨10, 1, []⟩⟩

/-! Theorems. -/

/-- On naturals, `if a > b then a - b else 0` equals the
`max(0, a - b)` of the claims, read in the integers. -/
theorem natSubIf_eq_intToNat (a b : Nat) :
    (if a > b then a - b else 0) = ((a : Int) - (b : Int)).toNat := by
  split_ifs with h <;> omega

/-- The two walks of the non-generational selection loop agree: testing
`cur_garbage + garbage < min_garbage` before updating the accumulators is the
same as the source's `new_garbage < min_garbage`. -/
theorem nonGenLoop_eq_amended (max_cset min_garbage garbage_threshold : Nat)
    (l : List Region) :
    ∀ cur_cset cur_garbage,
      nonGenLoop max_cset min_garbage garbage_threshold cur_cset cur_garbage l =
        nonGenLoopAmended max_cset min_garbage garbage_threshold cur_cset cur_garbage l := by
  induction l with
  | nil => intro c g; rfl
  | cons r rest ih =>
    intro c g
    simp only [nonGenLoop, nonGenLoopAmended]
    split_ifs with h1 h2 <;> simp [ih]

/-- Claim C1 (amended): in non-generational mode the chooser walks the regions
sorted by garbage descending and, for each region `r`, terminates the entire
selection loop as soon as `cur_cset + r.live > max_cset`; otherwise it adds
`r` if and only if `cur_garbage + r.garbage < min_garbage` or
`r.garbage > garbage_threshold`, where `max_cset =
capacity·EvacReserve/100/EvacWaste`, `free_target = capacity·MinFreeThreshold/100
+ max_cset`, and `min_garbage = max(0, free_target − actual_free)`, with
`cur_cset` and `cur_garbage` the sums of live bytes and garbage of the regions
added so far. -/
theorem C1_nongen_selection (P : ChooserParams) (heap_max_capacity actual_free : Nat)
    (data : List Region) :
    choose_collection_set_nongen P heap_max_capacity actual_free data =
      choose_nongen_amended P heap_max_capacity actual_free data := by
  simp only [choose_collection_set_nongen, choose_nongen_amended]
  rw [div_mul_eq_mul_div, natSubIf_eq_intToNat]
  exact nonGenLoop_eq_amended _ _ _ _ 0 0

/-- Claim C1, counterexample to the claim as stated: with capacity 1000,
`actual_free = 195` (so `min_garbage = 5`) and a single region of 10 garbage
bytes (`garbage_threshold = 20`), the source skips the region because
`cur_garbage + 10 = 10 ≥ 5`, while the claimed rule adds it because
`cur_garbage = 0 < 5`. -/
theorem C1_counterexample :
    choose_collection_set_nongen C1P 1000 195 [C1r] ≠
      choose_nongen_claimed C1P 1000 195 [C1r] := by
  have hcode : choose_collection_set_nongen C1P 1000 195 [C1r] = [] := by
    simp only [choose_collection_set_nongen, C1P, C1r]
    norm_num
    simp [sortByGarbage, List.insertionSort, nonGenLoop]
  have hclaim : choose_nongen_claimed C1P 1000 195 [C1r] = [C1r] := by
    simp only [choose_nongen_claimed, C1P, C1r]
    norm_num
    simp [sortByGarbage, List.insertionSort, nonGenLoopClaimed, C1r]
  rw [hcode, hclaim]
  simp

/-- Claim C8: `record_success_degenerated` adds `DEGEN_PENALTY_SD = 0.1` to the
margin of error and subtracts 0.1 from the spike threshold (both saturated to
`[0.319, 3.291]`); `record_success_full` does the same with
`FULL_PENALTY_SD = 0.2`, so starting from margin 1.00 and spike threshold 2.00
a full GC yields margin 1.20 and spike threshold 1.80. -/
theorem C8_penalty_adjustments (s : AdaptiveState) :
    DEGENERATE_PENALTY_SD = 0.1 ∧ FULL_PENALTY_SD = 0.2 ∧
    (record_success_degenerated s).margin_of_error_sd =
      saturate (s.margin_of_error_sd + DEGENERATE_PENALTY_SD)
        MINIMUM_CONFIDENCE MAXIMUM_CONFIDENCE ∧
    (record_success_degenerated s).spike_threshold_sd =
      saturate (s.spike_threshold_sd - DEGENERATE_PENALTY_SD)
        MINIMUM_CONFIDENCE MAXIMUM_CONFIDENCE ∧
    (record_success_full s).margin_of_error_sd =
      saturate (s.margin_of_error_sd + FULL_PENALTY_SD)
        MINIMUM_CONFIDENCE MAXIMUM_CONFIDENCE ∧
    (record_success_full s).spike_threshold_sd =
      saturate (s.spike_threshold_sd - FULL_PENALTY_SD)
        MINIMUM_CONFIDENCE MAXIMUM_CONFIDENCE ∧
    (record_success_full C8s).margin_of_error_sd = 1.2 ∧
    (record_success_full C8s).spike_threshold_sd = 1.8 := by
  refine ⟨rfl, rfl, ?_, ?_, ?_, ?_, ?_, ?_⟩
  · simp [record_success_degenerated, adjust_margin_of_error, adjust_spike_threshold]
  · simp [record_success_degenerated, adjust_margin_of_error, adjust_spike_threshold]
  · simp [record_success_full, adjust_margin_of_error, adjust_spike_threshold]
  · simp [record_success_full, adjust_margin_of_error, adjust_spike_threshold]
  · simp only [record_success_full, adjust_margin_of_error, adjust_spike_threshold, C8s,
      saturate, FULL_PENALTY_SD, MINIMUM_CONFIDENCE, MAXIMUM_CONFIDENCE]
    rw [min_eq_left (by norm_num), max_eq_left (by norm_num)]
    norm_num
  · simp only [record_success_full, adjust_margin_of_error, adjust_spike_threshold, C8s,
      saturate, FULL_PENALTY_SD, MINIMUM_CONFIDENCE, MAXIMUM_CONFIDENCE]
    rw [min_eq_left (by norm_num), max_eq_left (by norm_num)]
    norm_num

/-- Saturating into the confidence interval always lands inside it. -/
theorem saturate_confidence_mem (v : ℝ) :
    inConfidenceRange (saturate v MINIMUM_CONFIDENCE MAXIMUM_CONFIDENCE) := by
  constructor
  · exact le_max_right _ _
  · refine max_le (min_le_right _ _) ?_
    norm_num [MINIMUM_CONFIDENCE, MAXIMUM_CONFIDENCE]

/-- The trigger-parameter dispatch keeps both confidence parameters in the
interval (the adjusted one by saturation, the other because it is
unchanged). -/
theorem adjust_last_trigger_confidence (s : AdaptiveState) (amount : ℝ)
    (hm : inConfidenceRange s.margin_of_error_sd)
    (hs : inConfidenceRange s.spike_threshold_sd) :
    inConfidenceRange (adjust_last_trigger_parameters s amount).margin_of_error_sd ∧
      inConfidenceRange (adjust_last_trigger_parameters s amount).spike_threshold_sd := by
  cases htr : s.last_trigger <;>
    simp [adjust_last_trigger_parameters, htr, adjust_margin_of_error,
      adjust_spike_threshold, saturate_confidence_mem, hm, hs]

/-- A single cycle outcome keeps both confidence parameters in the interval. -/
theorem applyEvent_confidence (s : AdaptiveState) (e : Event)
    (hm : inConfidenceRange s.margin_of_error_sd)
    (hs : inConfidenceRange s.spike_threshold_sd) :
    inConfidenceRange (applyEvent s e).margin_of_error_sd ∧
      inConfidenceRange (applyEvent s e).spike_threshold_sd := by
  cases e with
  | degen =>
    exact ⟨saturate_confidence_mem _, saturate_confidence_mem _⟩
  | full =>
    exact ⟨saturate_confidence_mem _, saturate_confidence_mem _⟩
  | conc ga fa =>
    simp only [applyEvent, record_success_concurrent]
    split_ifs with h1 h2 h3 <;>
      first
        | exact ⟨hm, hs⟩
        | exact adjust_last_trigger_confidence _ _ hm hs

/-- Claim C4: the margin of error and the spike threshold always remain in
`[0.319, 3.291]`: for every real adjustment, `adjust_margin_of_error` and
`adjust_spike_threshold` leave the adjusted parameter in
`[MINIMUM_CONFIDENCE, MAXIMUM_CONFIDENCE]`, and hence any sequence of
`record_success_concurrent`, `record_success_degenerated` and
`record_success_full` calls starting from values in that interval keeps both
parameters in it. -/
theorem C4_confidence_saturation :
    (∀ (amount : ℝ) (s : AdaptiveState),
        inConfidenceRange (adjust_margin_of_error s amount).margin_of_error_sd ∧
          inConfidenceRange (adjust_spike_threshold s amount).spike_threshold_sd) ∧
    ∀ (tr : List Event) (s : AdaptiveState),
      inConfidenceRange s.margin_of_error_sd →
      inConfidenceRange s.spike_threshold_sd →
      inConfidenceRange (applyTrace tr s).margin_of_error_sd ∧
        inConfidenceRange (applyTrace tr s).spike_threshold_sd := by
  constructor
  · intro amount s
    exact ⟨saturate_confidence_mem _, saturate_confidence_mem _⟩
  · intro tr
    induction tr with
    | nil => intro s hm hs; exact ⟨hm, hs⟩
    | cons e tr ih =>
      intro s hm hs
      have h := applyEvent_confidence s e hm hs
      exact ih (applyEvent s e) h.1 h.2

/-- Witness for claim C4: a full GC, a degenerated GC and a concurrent success
applied to margin 1, spike threshold 2 leave both parameters in the
interval. -/
theorem C4_witness :
    inConfidenceRange
        (applyTrace [Event.full, Event.degen, Event.conc 3 5] C4s).margin_of_error_sd ∧
      inConfidenceRange
        (applyTrace [Event.full, Event.degen, Event.conc 3 5] C4s).spike_threshold_sd :=
  C4_confidence_saturation.2 [Event.full, Event.degen, Event.conc 3 5] C4s
    (by constructor <;>
      norm_num [C4s, inConfidenceRange, MINIMUM_CONFIDENCE, MAXIMUM_CONFIDENCE])
    (by constructor <;>
      norm_num [C4s, inConfidenceRange, MINIMUM_CONFIDENCE, MAXIMUM_CONFIDENCE])

/-- Claim C3 (amended): `record_success_concurrent` computes
`avail = min(generation.available, free_set.available)`, computes
`z = (avail − avail.avg)/avail.sd` from the history's statistics BEFORE the
push (`z = 0` when that `sd` is not positive), pushes `avail` onto the
history, and calls `adjust_last_trigger_parameters(−z/100)` exactly when
`z < −0.5` or `z > 0.5`; the dispatch adjusts the margin of error when the
last trigger was RATE, the spike threshold when it was SPIKE, and nothing when
it was OTHER. -/
theorem C3_concurrent_feedback (s : AdaptiveState) (gen_available fs_available : Nat) :
    record_success_concurrent s gen_available fs_available =
      record_success_concurrent_amended s gen_available fs_available := by
  simp only [record_success_concurrent, record_success_concurrent_amended, div_neg, neg_div]

/-- Claim C3, counterexample to the claim as stated (push before computing the
z-score): with history `[0]` and `avail = 10`, the source computes the z-score
from the pre-push statistics (`sd = 0`, so `z = 0`, no adjustment, margin
stays 1), while pushing first gives window `[10, 0]` with `avg = 5`, `sd = 5`,
`z = 1 > 0.5`, adjusting the RATE trigger's margin to 0.99. -/
theorem C3_counterexample :
    (record_success_concurrent C3s 10 10).margin_of_error_sd ≠
      (record_success_concurrent_claimed C3s 10 10).margin_of_error_sd := by
  have hsd_pre : (DMA.mk 10 1 [0]).sd = 0 := by
    simp [DMA.sd, DMA.variance, DMA.avg]
  have hadd : (DMA.mk 10 1 [0]).add (10 : ℝ) = DMA.mk 10 1 [10, 0] := by
    simp [DMA.add]
  have havg : (DMA.mk 10 1 [(10 : ℝ), 0]).avg = 5 := by
    simp [DMA.avg]
    norm_num
  have hsd_post : (DMA.mk 10 1 [(10 : ℝ), 0]).sd = 5 := by
    have hvar : (DMA.mk 10 1 [(10 : ℝ), 0]).variance = 25 := by
      simp [DMA.variance, havg]
      norm_num
    rw [DMA.sd, hvar, show (25 : ℝ) = 5 ^ 2 by norm_num, Real.sqrt_sq (by norm_num)]
  have hcode : (record_success_concurrent C3s 10 10).margin_of_error_sd = 1 := by
    simp only [record_success_concurrent, C3s, hsd_pre]
    norm_num [LOWEST_EXPECTED_AVAILABLE_AT_END, HIGHEST_EXPECTED_AVAILABLE_AT_END]
  have hclaim : (record_success_concurrent_claimed C3s 10 10).margin_of_error_sd =
      0.99 := by
    simp only [record_success_concurrent_claimed, C3s]
    norm_num [hadd, hsd_post, havg, LOWEST_EXPECTED_AVAILABLE_AT_END,
      HIGHEST_EXPECTED_AVAILABLE_AT_END, adjust_last_trigger_parameters,
      adjust_margin_of_error, saturate, MINIMUM_CONFIDENCE, MAXIMUM_CONFIDENCE,
      min_eq_left, max_eq_left]
  rw [hcode, hclaim]
  norm_num

/-- Claim C2: for every non-old generation, whenever the mutator-visible
available bytes (`generation.soft_available`, replaced by
`free_set.available` when that is smaller) are below
`min_free_threshold = capacity · ShenandoahMinFreeThreshold / 100`,
`should_start_gc` returns true and the last trigger is left as OTHER,
regardless of the allocation-rate, spike or learning state. -/
theorem C2_min_threshold_trigger (P : TriggerParams) (E : Env) (now : ℝ)
    (s : AdaptiveState) (hold : E.is_old = false)
    (havail : min E.soft_available E.free_set_available <
      min_free_threshold P E.soft_max_capacity) :
    (should_start_gc P E now s).1 = true ∧
      (should_start_gc P E now s).2.last_trigger = Trigger.OTHER := by
  have hmin : (if E.free_set_available < E.soft_available then E.free_set_available
      else E.soft_available) = min E.soft_available E.free_set_available := by
    rcases lt_or_le E.free_set_available E.soft_available with h | h
    · simp [h, min_eq_right h.le]
    · simp [not_lt.2 h, min_eq_left h]
  simp only [should_start_gc, hmin, hold]
  simp only [Bool.false_eq_true, if_false]
  rw [if_pos havail]
  exact ⟨rfl, rfl⟩

/-- Witness for claim C2: with 5 bytes available out of capacity 1000 and a
minimum threshold of 100, the trigger fires with OTHER. -/
theorem C2_witness :
    (should_start_gc C2P C2E 0 C2s).1 = true ∧
      (should_start_gc C2P C2E 0 C2s).2.last_trigger = Trigger.OTHER :=
  C2_min_threshold_trigger C2P C2E 0 C2s rfl
    (by norm_num [C2E, C2P, min_free_threshold])

/-- Claim C5: a `sample(allocated)` call within `interval_sec` of the previous
sample time returns 0 and modifies no estimator state; a call after the
interval whose counter has regressed adds nothing to the `rate` and
`rate_of_avg` DMAs and returns 0, but still updates `last_sample_time` and
`last_sample_value` to the current tuple, so a counter regression never
produces a negative rate sample. -/
theorem C5_sample_rate_limit (a : AllocationRate) (now : ℝ) (allocated : Nat) :
    (now - a.last_sample_time ≤ a.interval_sec →
      a.sample now allocated = (0, a)) ∧
    (now - a.last_sample_time > a.interval_sec →
      allocated < a.last_sample_value →
      (a.sample now allocated).1 = 0 ∧
        (a.sample now allocated).2.rate = a.rate ∧
        (a.sample now allocated).2.rate_avg = a.rate_avg ∧
        (a.sample now allocated).2.last_sample_time = now ∧
        (a.sample now allocated).2.last_sample_value = allocated ∧
        (a.sample now allocated).2.interval_sec = a.interval_sec) := by
  constructor
  · intro h
    rw [AllocationRate.sample, if_neg (not_lt.2 h)]
  · intro h hreg
    rw [AllocationRate.sample, if_pos h, if_neg (not_le.2 hreg)]
    exact ⟨rfl, rfl, rfl, rfl, rfl, rfl⟩

/-- Witness for claim C5: with the last sample (time 0, value 100) and a
1-second interval, sampling at time 0.5 changes nothing and returns 0, and
sampling value 50 at time 2 returns 0, leaves both DMAs untouched and advances
the snapshot to (2, 50). -/
theorem C5_witness :
    C5a.sample (1 / 2) 42 = (0, C5a) ∧
      ((C5a.sample 2 50).1 = 0 ∧
        (C5a.sample 2 50).2.rate = C5a.rate ∧
        (C5a.sample 2 50).2.rate_avg = C5a.rate_avg ∧
        (C5a.sample 2 50).2.last_sample_time = 2 ∧
        (C5a.sample 2 50).2.last_sample_value = 50 ∧
        (C5a.sample 2 50).2.interval_sec = C5a.interval_sec) :=
  ⟨(C5_sample_rate_limit C5a (1 / 2) 42).1 (by norm_num [C5a]),
    (C5_sample_rate_limit C5a 2 50).2 (by norm_num [C5a]) (by norm_num [C5a])⟩

/-- The window mean of a window of non-negative samples is non-negative. -/
theorem DMA.avg_nonneg (d : DMA) (h : ∀ x ∈ d.window, 0 ≤ x) : 0 ≤ d.avg :=
  div_nonneg (List.sum_nonneg h) (Nat.cast_nonneg _)

/-- Claim C10: `ShenandoahAllocationRate::sample` is total and never yields a
negative rate: the instantaneous rate clamps the allocation delta at 0 when
the counter regressed and is 0 whenever the elapsed time is not positive, so
no division by zero occurs and only non-negative values are ever returned or
added to the rate DMAs. -/
theorem C10_rate_nonneg (a : AllocationRate) (time now : ℝ) (allocated : Nat) :
    0 ≤ a.instantaneous_rate time allocated ∧
      ((∀ x ∈ a.rate.window, 0 ≤ x) → (∀ x ∈ a.rate_avg.window, 0 ≤ x) →
        0 ≤ (a.sample now allocated).1 ∧
          (∀ x ∈ (a.sample now allocated).2.rate.window, 0 ≤ x) ∧
          (∀ x ∈ (a.sample now allocated).2.rate_avg.window, 0 ≤ x)) := by
  have hinst : ∀ (t : ℝ) (al : Nat), 0 ≤ a.instantaneous_rate t al := by
    intro t al
    simp only [AllocationRate.instantaneous_rate]
    split_ifs with h h2 <;>
      first
        | exact div_nonneg (Nat.cast_nonneg _) (le_of_lt h)
        | norm_num
  refine ⟨hinst time allocated, ?_⟩
  intro hr hra
  rw [AllocationRate.sample]
  split_ifs with h1 h2
  · have hwin : ∀ x ∈ (a.rate.add (a.instantaneous_rate now allocated)).window, 0 ≤ x := by
      intro x hx
      simp only [DMA.add] at hx
      rcases List.mem_cons.1 (List.take_subset _ _ hx) with rfl | hx'
      · exact hinst now allocated
      · exact hr x hx'
    refine ⟨hinst now allocated, hwin, ?_⟩
    intro x hx
    simp only [DMA.add] at hx
    rcases List.mem_cons.1 (List.take_subset _ _ hx) with rfl | hx'
    · exact DMA.avg_nonneg _ hwin
    · exact hra x hx'
  · exact ⟨le_refl 0, hr, hra⟩
  · exact ⟨le_refl 0, hr, hra⟩

/-- Witness for claim C10: on an estimator with empty windows, the
instantaneous rate is non-negative and a sample at time 2 of value 7 returns a
non-negative rate and leaves only non-negative entries in both windows. -/
theorem C10_witness :
    0 ≤ C10a.instantaneous_rate 1 5 ∧
      (0 ≤ (C10a.sample 2 7).1 ∧
        (∀ x ∈ (C10a.sample 2 7).2.rate.window, 0 ≤ x) ∧
        (∀ x ∈ (C10a.sample 2 7).2.rate_avg.window, 0 ≤ x)) :=
  ⟨(C10_rate_nonneg C10a 1 2 5).1,
    (C10_rate_nonneg C10a 1 2 7).2 (by simp [C10a]) (by simp [C10a])⟩

/-- `evacSlack` grows with the anticipated bytes and shrinks with the
budget. -/
theorem evacSlack_mono {A A' : Nat} {x x' : ℝ} (hA : A ≤ A') (hx : x' ≤ x) :
    evacSlack A x ≤ evacSlack A' x' := by
  have hAc : (A : ℝ) ≤ (A' : ℝ) := Nat.cast_le.2 hA
  rw [evacSlack, evacSlack]
  split_ifs with h1 h2 h3
  · exact Int.toNat_le_toNat (Int.floor_le_floor (by linarith))
  · exact absurd (by linarith : (A' : ℝ) > x') h2
  · exact Nat.zero_le _
  · exact Nat.zero_le _

/-- Claim C6: with all statistics and collaborator values held fixed, the
runway returned by `bytes_of_allocation_runway_before_gc_trigger` never
decreases when `young_regions_to_be_reclaimed` increases, and never increases
when the penalties term (`_gc_time_penalties`) or the spike-headroom term
(`ShenandoahAllocSpikeFactor`) increases.  The hypothesis `hnu` restricts to
inputs where the source's `size_t` computation of `anticipated_available` does
not underflow. -/
theorem C6_runway_monotonicity (P : TriggerParams) (E : Env) (now : ℝ)
    (s : AdaptiveState) (k k' p p' sf sf' : Nat)
    (hk : k ≤ k') (hp : p ≤ p') (hsf : sf ≤ sf')
    (hnu : E.young_available_bytes_collected ≤
      (if E.soft_max_capacity > E.used then E.soft_max_capacity - E.used else 0) +
        k * P.region_size_bytes) :
    bytes_of_allocation_runway_before_gc_trigger
        { P with AllocSpikeFactor := sf' } E now
        { s with gc_time_penalties := p' } k ≤
      bytes_of_allocation_runway_before_gc_trigger
        { P with AllocSpikeFactor := sf } E now
        { s with gc_time_penalties := p } k' := by
  simp only [bytes_of_allocation_runway_before_gc_trigger, min_free_threshold]
  set avail := (if E.soft_max_capacity > E.used then E.soft_max_capacity - E.used else 0)
    with havail
  have hAnat :
      avail + k * P.region_size_bytes - E.young_available_bytes_collected ≤
        avail + k' * P.region_size_bytes - E.young_available_bytes_collected := by
    have := Nat.mul_le_mul_right P.region_size_bytes hk
    omega
  have hpen : (↑(E.soft_max_capacity * p / 100) : ℝ) ≤
      (↑(E.soft_max_capacity * p' / 100) : ℝ) :=
    Nat.cast_le.2 (Nat.div_le_div_right (Nat.mul_le_mul_left _ hp))
  have hsh : (↑(E.soft_max_capacity * sf / 100) : ℝ) ≤
      (↑(E.soft_max_capacity * sf' / 100) : ℝ) :=
    Nat.cast_le.2 (Nat.div_le_div_right (Nat.mul_le_mul_left _ hsf))
  by_cases hspike :
      AllocationRate.is_spiking
        (s.allocation_rate.sample now E.bytes_allocated_since_gc_start).2
        (s.allocation_rate.sample now E.bytes_allocated_since_gc_start).1
        s.spike_threshold_sd
  · rw [if_pos hspike, if_pos hspike]
    refine min_le_min (min_le_min ?_ ?_) ?_
    · exact evacSlack_mono hAnat (by linarith)
    · exact evacSlack_mono hAnat (by linarith)
    · split_ifs <;> omega
  · rw [if_neg hspike, if_neg hspike]
    refine min_le_min (min_le_min ?_ ?_) ?_
    · exact evacSlack_mono hAnat (by linarith)
    · exact evacSlack_mono hAnat (by linarith)
    · split_ifs <;> omega

/-- Witness for claim C6: reclaiming one more young region while lowering the
penalties and the spike factor can only increase the runway. -/
theorem C6_witness :
    bytes_of_allocation_runway_before_gc_trigger
        { C6P with AllocSpikeFactor := 6 } C6E 0
        { C6s with gc_time_penalties := 1 } 1 ≤
      bytes_of_allocation_runway_before_gc_trigger
        { C6P with AllocSpikeFactor := 5 } C6E 0
        { C6s with gc_time_penalties := 0 } 2 :=
  C6_runway_monotonicity C6P C6E 0 C6s 1 2 0 1 5 6 (by norm_num) (by norm_num)
    (by norm_num) (by norm_num [C6E, C6P])

/-- The decayed mean of an empty window is 0. -/
theorem DMA.davg_empty (c : Nat) (a : ℝ) : (DMA.mk c a []).davg = 0 := by
  simp [DMA.davg, DMA.weights]

/-- The decayed standard deviation of an empty window is 0. -/
theorem DMA.dsd_empty (c : Nat) (a : ℝ) : (DMA.mk c a []).dsd = 0 := by
  simp [DMA.dsd, DMA.dvariance, DMA.weights, Real.sqrt_zero]

/-- The source's `if usable < available` replacement computes the minimum. -/
theorem if_usable_eq_min (soft usable : Nat) :
    (if usable < soft then usable else soft) = min soft usable := by
  rcases lt_or_le usable soft with h | h
  · simp [h, min_eq_right h.le]
  · simp [not_lt.2 h, min_eq_left h]

/-- Claim C9 (amended): for a non-old generation in non-generational mode with
the base heuristic's time-based trigger not firing, while
`gc_times_learned < LearningSteps` and the minimum-free trigger did not fire,
`should_start_gc` returns true with the last trigger OTHER exactly when
`available < capacity / 100 · InitFreeThreshold`, the threshold being computed
with the integer division `capacity / 100` performed first (for a capacity of
1,024 MiB and `InitFreeThreshold = 70` this is 751,619,260 bytes, slightly
below the exact `capacity · 70 / 100`). -/
theorem C9_learning_trigger (P : TriggerParams) (E : Env) (now : ℝ)
    (s : AdaptiveState) (hold : E.is_old = false) (hgen : E.is_generational = false)
    (hbase : E.base_should_start_gc = false)
    (hlearn : s.gc_times_learned < P.LearningSteps)
    (hmin : ¬ min E.soft_available E.free_set_available <
        min_free_threshold P E.soft_max_capacity) :
    ((should_start_gc P E now s).1 = true ∧
        (should_start_gc P E now s).2.last_trigger = Trigger.OTHER) ↔
      min E.soft_available E.free_set_available <
        E.soft_max_capacity / 100 * P.InitFreeThreshold := by
  simp only [should_start_gc, if_usable_eq_min, hold, hgen, hbase]
  simp only [Bool.false_eq_true, if_false]
  rw [if_neg hmin]
  by_cases hinit : min E.soft_available E.free_set_available <
      E.soft_max_capacity / 100 * P.InitFreeThreshold
  · rw [if_pos ⟨hlearn, hinit⟩]
    simpa using hinit
  · rw [if_neg fun h => hinit h.2]
    split_ifs with h1 h2 <;> simp [hinit]

/-- Witness for claim C9 (amended): with capacity 102 and 60 bytes available
(above the minimum threshold 10 but below the learning threshold
`102 / 100 * 70 = 70`), the learning trigger fires with OTHER. -/
theorem C9_witness :
    (should_start_gc C9P C9Ew (1 / 2) C9s).1 = true ∧
      (should_start_gc C9P C9Ew (1 / 2) C9s).2.last_trigger = Trigger.OTHER :=
  (C9_learning_trigger C9P C9Ew (1 / 2) C9s rfl rfl rfl
      (by norm_num [C9s, C9P])
      (by norm_num [C9Ew, C9P, min_free_threshold])).2
    (by norm_num [C9Ew, C9P])

/-- Claim C9, counterexample to the claim as stated: capacity 102,
`InitFreeThreshold = 70`, 70 bytes available.  The exact integer threshold of
the claim is `102 · 70 / 100 = 71`, so the claim predicts a trigger; the
source computes `capacity / 100 * InitFreeThreshold = 70` and, with every
other trigger quiet, returns false. -/
theorem C9_counterexample :
    min C9E.soft_available C9E.free_set_available <
        C9E.soft_max_capacity * C9P.InitFreeThreshold / 100 ∧
      C9s.gc_times_learned < C9P.LearningSteps ∧
      ¬ min C9E.soft_available C9E.free_set_available <
          min_free_threshold C9P C9E.soft_max_capacity ∧
      C9E.is_old = false ∧
      (should_start_gc C9P C9E (1 / 2) C9s).1 = false := by
  refine ⟨by norm_num [C9E, C9P], by norm_num [C9s, C9P],
    by norm_num [C9E, C9P, min_free_threshold], rfl, ?_⟩
  have hsample :
      (AllocationRate.mk 0 0 1 (DMA.mk 10 1 []) (DMA.mk 10 1 [])).sample (1 / 2) 0 =
        (0, AllocationRate.mk 0 0 1 (DMA.mk 10 1 []) (DMA.mk 10 1 [])) := by
    rw [AllocationRate.sample, if_neg (by norm_num)]
  simp only [should_start_gc, C9E, C9P, C9s]
  norm_num [hsample, min_free_threshold, AllocationRate.upper_bound,
    AllocationRate.is_spiking, DMA.davg_empty, DMA.dsd_empty]

/-- Every region emitted by the young/mixed second pass is non-preselected and
below tenure age. -/
theorem youngLoop_mem (pre : Nat → Bool) (tenure gThr iThr maxC minG : Nat) :
    ∀ (l : List Region) (c g : Nat) (r : Region),
      r ∈ youngLoop pre tenure gThr iThr maxC minG c g l →
      pre r.index = false ∧ r.age < tenure := by
  intro l
  induction l with
  | nil =>
    intro c g r h
    simp [youngLoop] at h
  | cons a t ih =>
    intro c g r h
    simp only [youngLoop] at h
    split_ifs at h with h1 h2 h3
    · exact ih _ _ _ h
    · rcases List.mem_cons.1 h with rfl | h'
      · exact ⟨Bool.not_eq_true _ ▸ h1, h2⟩
      · exact ih _ _ _ h'
    · exact ih _ _ _ h
    · exact ih _ _ _ h

/-- Every region emitted by the global second pass is non-preselected, and is
old or below tenure age. -/
theorem globalLoop_mem (pre : Nat → Bool) (tenure gThr iThr maxY maxO minG : Nat) :
    ∀ (l : List Region) (oc yc g : Nat) (r : Region),
      r ∈ globalLoop pre tenure gThr iThr maxY maxO minG oc yc g l →
      pre r.index = false ∧ (r.is_old = true ∨ r.age < tenure) := by
  intro l
  induction l with
  | nil =>
    intro oc yc g r h
    simp [globalLoop] at h
  | cons a t ih =>
    intro oc yc g r h
    simp only [globalLoop] at h
    split_ifs at h with h1 h2 h3 h4 h5
    · exact ih _ _ _ _ h
    · rcases List.mem_cons.1 h with rfl | h'
      · exact ⟨Bool.not_eq_true _ ▸ h1, Or.inl h2⟩
      · exact ih _ _ _ _ h'
    · exact ih _ _ _ _ h
    · rcases List.mem_cons.1 h with rfl | h'
      · exact ⟨Bool.not_eq_true _ ▸ h1, Or.inr h4⟩
      · exact ih _ _ _ _ h'
    · exact ih _ _ _ _ h
    · exact ih _ _ _ _ h

/-- In a list of regions with pairwise-distinct indices, filtering by the
index of a member yields exactly one region. -/
theorem filter_index_length_one :
    ∀ (l : List Region), (l.map Region.index).Nodup →
      ∀ r ∈ l, (l.filter fun x => x.index == r.index).length = 1 := by
  intro l
  induction l with
  | nil => intro _ r hr; cases hr
  | cons a t ih =>
    intro hnd r hr
    simp only [List.map_cons, List.nodup_cons] at hnd
    rcases List.mem_cons.1 hr with rfl | hrt
    · rw [List.filter_cons_of_pos (by simp)]
      have hnil : t.filter (fun x => x.index == r.index) = [] := by
        rw [List.filter_eq_nil_iff]
        intro x hx
        simp only [beq_iff_eq]
        intro hxe
        exact hnd.1 (hxe ▸ List.mem_map_of_mem Region.index hx)
      simp [hnil]
    · have hne : (a.index == r.index) = false := by
        simp only [beq_eq_false_iff_ne, ne_eq]
        intro he
        exact hnd.1 (he ▸ List.mem_map_of_mem Region.index hrt)
      rw [List.filter_cons_of_neg (by simp [hne])]
      exact ih hnd.2 r hrt

/-- Core of the generational-chooser claim: if the output is the preselected
first pass followed by a second pass `S` whose members are non-preselected and
old-or-young-enough, then the aged-exclusion, first-pass and exactly-once
properties hold. -/
theorem C7_core (pre : Nat → Bool) (tenure : Nat) (sorted S data : List Region)
    (hperm : List.Perm sorted data)
    (hSmem : ∀ r ∈ S, pre r.index = false ∧ (r.is_old = true ∨ r.age < tenure))
    (hnd : (data.map Region.index).Nodup) :
    (∀ r ∈ (sorted.filter (fun r => pre r.index) ++ S),
        pre r.index = false → r.is_old = false → r.age < tenure) ∧
      ((sorted.filter (fun r => pre r.index) ++ S).filter (fun r => pre r.index) =
        sorted.filter (fun r => pre r.index)) ∧
      ((sorted.filter (fun r => pre r.index) ++ S) =
        ((sorted.filter (fun r => pre r.index) ++ S).filter (fun r => pre r.index)) ++
          ((sorted.filter (fun r => pre r.index) ++ S).filter (fun r => !pre r.index))) ∧
      ∀ r ∈ data, pre r.index = true →
        ((sorted.filter (fun r => pre r.index) ++ S).filter
            (fun x => x.index == r.index)).length = 1 := by
  have hPre_mem : ∀ r ∈ sorted.filter (fun r => pre r.index), pre r.index = true :=
    fun r hr => by simpa using (List.mem_filter.1 hr).2
  have h2 : (sorted.filter (fun r => pre r.index) ++ S).filter (fun r => pre r.index) =
      sorted.filter (fun r => pre r.index) := by
    rw [List.filter_append]
    have ha1 : (sorted.filter (fun r => pre r.index)).filter (fun r => pre r.index) =
        sorted.filter (fun r => pre r.index) :=
      List.filter_eq_self.2 (fun a ha => by simp [hPre_mem a ha])
    have ha2 : S.filter (fun r => pre r.index) = [] :=
      List.filter_eq_nil_iff.2 (fun a ha => by simp [(hSmem a ha).1])
    rw [ha1, ha2, List.append_nil]
  have h3S : (sorted.filter (fun r => pre r.index) ++ S).filter (fun r => !pre r.index) =
      S := by
    rw [List.filter_append]
    have hb1 : (sorted.filter (fun r => pre r.index)).filter (fun r => !pre r.index) =
        [] :=
      List.filter_eq_nil_iff.2 (fun a ha => by simp [hPre_mem a ha])
    have hb2 : S.filter (fun r => !pre r.index) = S :=
      List.filter_eq_self.2 (fun a ha => by simp [(hSmem a ha).1])
    rw [hb1, hb2, List.nil_append]
  refine ⟨?_, h2, ?_, ?_⟩
  · intro r hr hpre hold
    rcases List.mem_append.1 hr with hP | hS
    · rw [hPre_mem r hP] at hpre
      cases hpre
    · rcases (hSmem r hS).2 with h | h
      · rw [h] at hold
        cases hold
      · exact h
  · rw [h2, h3S]
  · intro r hr hpre
    rw [List.filter_append]
    have hSnil : S.filter (fun x => x.index == r.index) = [] := by
      rw [List.filter_eq_nil_iff]
      intro x hx
      simp only [beq_iff_eq]
      intro he
      have hx' := (hSmem x hx).1
      rw [he, hpre] at hx'
      cases hx'
    have hcomm : (sorted.filter (fun r => pre r.index)).filter
        (fun x => x.index == r.index) = sorted.filter (fun x => x.index == r.index) := by
      rw [List.filter_filter]
      apply List.filter_congr
      intro x _
      by_cases hxe : x.index = r.index
      · simp [hxe, hpre]
      · simp [hxe]
    rw [hSnil, List.append_nil, hcomm,
      (hperm.filter (fun x => x.index == r.index)).length_eq]
    exact filter_index_length_one data hnd r hr

/-- Claim C7 (amended): in every generational mode, every preselected region
in the data is added to the collection set exactly once, in a first pass that
precedes every other addition (each such region contributing its `garbage()`
to `cur_young_garbage`, as the first pass of the embedding shows); and no
young (non-old) region with `age ≥ InitialTenuringThreshold` that is not
preselected is ever added.  (In global mode, old regions are added without an
age check, which is the amendment to the claim.) -/
theorem C7_generational_selection (P : ChooserParams) (pre : Nat → Bool)
    (is_global : Bool)
    (young_evac_reserve old_evac_reserve young_capacity actual_free : Nat)
    (data : List Region) (hnd : (data.map Region.index).Nodup) :
    (∀ r ∈ choose_collection_set_generational P pre is_global young_evac_reserve
          old_evac_reserve young_capacity actual_free data,
        pre r.index = false → r.is_old = false → r.age < P.InitialTenuringThreshold) ∧
      ((choose_collection_set_generational P pre is_global young_evac_reserve
            old_evac_reserve young_capacity actual_free data).filter
          (fun r => pre r.index) =
        (sortByGarbage data).filter (fun r => pre r.index)) ∧
      (choose_collection_set_generational P pre is_global young_evac_reserve
          old_evac_reserve young_capacity actual_free data =
        ((choose_collection_set_generational P pre is_global young_evac_reserve
              old_evac_reserve young_capacity actual_free data).filter
            (fun r => pre r.index)) ++
          ((choose_collection_set_generational P pre is_global young_evac_reserve
                old_evac_reserve young_capacity actual_free data).filter
              (fun r => !pre r.index))) ∧
      ∀ r ∈ data, pre r.index = true →
        ((choose_collection_set_generational P pre is_global young_evac_reserve
              old_evac_reserve young_capacity actual_free data).filter
            (fun x => x.index == r.index)).length = 1 := by
  have hperm : List.Perm (sortByGarbage data) data := by
    unfold sortByGarbage
    exact List.perm_insertionSort _ data
  cases is_global with
  | true =>
    have hch : choose_collection_set_generational P pre true young_evac_reserve
        old_evac_reserve young_capacity actual_free data =
        (sortByGarbage data).filter (fun r => pre r.index) ++
          globalLoop pre P.InitialTenuringThreshold
            (P.region_size_bytes * P.GarbageThreshold / 100)
            (P.region_size_bytes * P.IgnoreGarbageThreshold / 100)
            (⌊(young_evac_reserve : Rat) / P.EvacWaste⌋).toNat
            (⌊(old_evac_reserve : Rat) / P.OldEvacWaste⌋).toNat
            (if young_capacity * P.MinFreeThreshold / 100 +
                  (⌊(young_evac_reserve : Rat) / P.EvacWaste⌋).toNat > actual_free then
              young_capacity * P.MinFreeThreshold / 100 +
                  (⌊(young_evac_reserve : Rat) / P.EvacWaste⌋).toNat - actual_free
            else 0)
            0 0
            ((((sortByGarbage data).filter (fun r => pre r.index)).map Region.garbage).sum)
            (sortByGarbage data) := by
      simp only [choose_collection_set_generational]
      rw [if_pos trivial]
    rw [hch]
    exact C7_core pre P.InitialTenuringThreshold (sortByGarbage data) _ data hperm
      (fun r hr => globalLoop_mem _ _ _ _ _ _ _ _ _ _ _ r hr) hnd
  | false =>
    have hch : choose_collection_set_generational P pre false young_evac_reserve
        old_evac_reserve young_capacity actual_free data =
        (sortByGarbage data).filter (fun r => pre r.index) ++
          youngLoop pre P.InitialTenuringThreshold
            (P.region_size_bytes * P.GarbageThreshold / 100)
            (P.region_size_bytes * P.IgnoreGarbageThreshold / 100)
            (⌊(young_evac_reserve : Rat) / P.EvacWaste⌋).toNat
            (if young_capacity * P.MinFreeThreshold / 100 +
                  (⌊(young_evac_reserve : Rat) / P.EvacWaste⌋).toNat > actual_free then
              young_capacity * P.MinFreeThreshold / 100 +
                  (⌊(young_evac_reserve : Rat) / P.EvacWaste⌋).toNat - actual_free
            else 0)
            0
            ((((sortByGarbage data).filter (fun r => pre r.index)).map Region.garbage).sum)
            (sortByGarbage data) := by
      simp only [choose_collection_set_generational]
      rw [if_neg (by simp)]

    rw [hch]
    refine C7_core pre P.InitialTenuringThreshold (sortByGarbage data) _ data hperm
      (fun r hr => ?_) hnd
    have h := youngLoop_mem pre P.InitialTenuringThreshold _ _ _ _ _ _ _ r hr
    exact ⟨h.1, Or.inr h.2⟩

/-- Claim C7, counterexample to the claim as stated: in global mode, an old
region of age 16 ≥ InitialTenuringThreshold = 15 that is NOT preselected is
added to the collection set (old regions are admitted on garbage and budget
alone, with no age check). -/
theorem C7_counterexample :
    C7r ∈ choose_collection_set_generational C7P (fun _ => false) true
        1000 1000 100 2000 [C7r] ∧
      (fun _ : Nat => false) C7r.index = false ∧
      C7P.InitialTenuringThreshold ≤ C7r.age := by
  refine ⟨?_, rfl, by norm_num [C7P, C7r]⟩
  simp only [choose_collection_set_generational, C7P, C7r]
  norm_num [sortByGarbage, List.insertionSort, globalLoop]

/-- Witness for claim C7 (amended): two young regions with distinct indices,
the first preselected; the preselected one is added exactly once in the first
pass and the non-preselected aged one is excluded. -/
theorem C7_witness :
    (∀ r ∈ choose_collection_set_generational C7P C7preW false
          1000 1000 100 2000 C7dataW,
        C7preW r.index = false → r.is_old = false →
          r.age < C7P.InitialTenuringThreshold) ∧
      ((choose_collection_set_generational C7P C7preW false
            1000 1000 100 2000 C7dataW).filter (fun r => C7preW r.index) =
        (sortByGarbage C7dataW).filter (fun r => C7preW r.index)) ∧
      (choose_collection_set_generational C7P C7preW false
          1000 1000 100 2000 C7dataW =
        ((choose_collection_set_generational C7P C7preW false
              1000 1000 100 2000 C7dataW).filter (fun r => C7preW r.index)) ++
          ((choose_collection_set_generational C7P C7preW false
                1000 1000 100 2000 C7dataW).filter (fun r => !C7preW r.index))) ∧
      ∀ r ∈ C7dataW, C7preW r.index = true →
        ((choose_collection_set_generational C7P C7preW false
              1000 1000 100 2000 C7dataW).filter
            (fun x => x.index == r.index)).length = 1 :=
  C7_generational_selection C7P C7preW false 1000 1000 100 2000 C7dataW (by decide)
